import Mathlib

/-!
Shallow embedding of the pipeline watchdog in `src/stream/pipeline/runner.rs`
(`PipelineRunner`): the stall-detection bookkeeping of the watcher loop, the
watcher loop itself as a small-step state machine over oracle inputs from the
collaborators (start channel, pipeline, bus, killswitch channel), the thread
body that classifies the loop's outcome into a broadcast reason, `try_new`,
and the destructor.

Conventions of the embedding:
* `gst::ClockTime` positions are embedded as their nanosecond count (`Nat`).
* Each call the loop makes into a collaborator (channel `try_recv`, pipeline
  state query, bus pop, ...) is an oracle input consumed by the step function;
  the step function itself is a verbatim translation of the control flow of
  `PipelineRunner::runner` (runner.rs lines 84-229).
* Real-time durations (the 100 ms sleeps and bounded waits) are not embedded;
  one step of the machine is one trip through the corresponding loop body.
-/

set_option autoImplicit false
set_option linter.unusedVariables false

namespace PipelineRunner

/-- Stall-detection bookkeeping of the watcher loop: `previous_position` and
`lost_timestamps` (runner.rs lines 101-102). -/
structure StallState where
  previous_position : Option Nat
  lost_timestamps : Nat
deriving DecidableEq

/-- The fixed stall threshold `max_lost_timestamps` (runner.rs line 103). -/
def max_lost_timestamps : Nat := 15

/-- One stall-detection check on one position observation (runner.rs lines
145-168), returning the updated state and whether the `break 'inner` re-drive
was triggered. A `none` position leaves the state untouched (the whole block
is guarded by `if let Some(position)`). With a `none` baseline the observation
only installs the baseline. Otherwise the counter is incremented when the
baseline is non-zero and equal to the observation, and reset to zero when not;
the threshold test then runs on the updated counter, and on a trigger the code
breaks before `previous_position` is reassigned, so the baseline is left
unchanged there. -/
def stall_check (s : StallState) (position : Option Nat) : StallState × Bool :=
  match position with
  | none => (s, false)
  | some p =>
    match s.previous_position with
    | none => (⟨some p, s.lost_timestamps⟩, false)
    | some prev =>
      let lost := if prev ≠ 0 ∧ prev = p then s.lost_timestamps + 1 else 0
      if max_lost_timestamps < lost then (⟨s.previous_position, 0⟩, true)
      else (⟨some p, lost⟩, false)

/-- Fold of `stall_check` over a sequence of position observations, returning
the final state and the number of triggered re-drives. -/
def stall_run (s : StallState) : List (Option Nat) → StallState × Nat
  | [] => (s, 0)
  | p :: rest =>
    let c := stall_check s p
    let r := stall_run c.1 rest
    (r.1, (if c.2 then 1 else 0) + r.2)

/-- Stall state of a freshly constructed runner (runner.rs lines 101-102). -/
def initial_stall : StallState := ⟨none, 0⟩

/-- Count of trailing consecutive unchanged observations of a position
sequence: an observation is unchanged when it equals its predecessor, and the
count restarts at zero on every change. `prev` is the predecessor of the head
(none at the start of the sequence) and `acc` the count accumulated so far. -/
def unchanged_run (prev : Option Nat) (acc : Nat) : List Nat → Nat
  | [] => acc
  | p :: rest =>
    match prev with
    | none => unchanged_run (some p) 0 rest
    | some q => unchanged_run (some p) (if p = q then acc + 1 else 0) rest

/-- Decides whether a position sequence contains at least one change, i.e.
one observation that differs from its predecessor. -/
def has_change : List Nat → Bool
  | [] => false
  | [_] => false
  | p :: q :: rest => if p = q then has_change (q :: rest) else true

/-- Messages popped from the pipeline bus, as dispatched by the watcher
(runner.rs lines 177-218): end-of-stream, error, state-changed, and anything
else (observational only). -/
inductive BusMsg
  | eos
  | busError
  | stateChanged
  | other
deriving DecidableEq

/-- Outcome of the bus-drain `while let` loop (runner.rs lines 174-219) on the
list of messages pending this iteration. -/
inductive DrainResult
  | drained
  | eosFound
  | errorFound
deriving DecidableEq

/-- Bus drain (runner.rs lines 174-219): pop messages in order; an
end-of-stream message breaks the outer loop, an error message breaks the inner
loop, anything else is logged and draining goes on until no message is left. -/
def drain_bus : List BusMsg → DrainResult
  | [] => .drained
  | .eos :: _ => .eosFound
  | .busError :: _ => .errorFound
  | .stateChanged :: rest => drain_bus rest
  | .other :: rest => drain_bus rest

/-- Result of `start_signal_receiver.try_recv()` (runner.rs line 112): a
received value, an empty channel, a closed channel (every sender dropped), or
a lagged receiver (the bounded broadcast channel overwrote a message this
receiver had not read yet). -/
inductive StartRecv
  | recvOk
  | empty
  | closed
  | lagged
deriving DecidableEq

/-- Result of `try_recv` on the start channel, a tokio broadcast channel of
capacity 1 (`broadcast::channel(1)`, runner.rs line 30), as a function of
whether a sender is still alive, the total number of `send` calls so far, and
the receiver's cursor (number of messages this receiver has consumed).
Modelled from the tokio broadcast contract: no pending message yields `Empty`
(or `Closed` once every sender is gone), exactly one pending message is
delivered, and more than one pending message means the capacity-1 buffer
dropped one, so the receiver observes `Lagged`. -/
def start_try_recv (sender_alive : Bool) (sent cursor : Nat) : StartRecv :=
  if sent ≤ cursor then (if sender_alive then .empty else .closed)
  else if sent = cursor + 1 then .recvOk
  else .lagged

/-- Oracle inputs consumed by one trip through the outer loop head (runner.rs
lines 108-139): the start-channel `try_recv` result, whether
`pipeline.current_state()` is already `Playing`, whether `set_state(Playing)`
succeeded, and whether `wait_for_element_state(_, Playing, 100, 5)`
succeeded. -/
structure OuterInput where
  start_recv : StartRecv
  is_playing : Bool
  set_state_ok : Bool
  wait_ok : Bool
deriving DecidableEq

/-- Oracle inputs consumed by one inner-loop iteration (runner.rs lines
141-225): the `query_position` result, the bus messages pending this
iteration, and the killswitch `try_recv` result (`none` for any of the error
cases, which line 221 ignores alike). -/
structure InnerInput where
  position : Option Nat
  bus_msgs : List BusMsg
  kill_recv : Option String
deriving DecidableEq

/-- Combined oracle input for one step; a step at the outer loop head reads
only the `outer` part, a step inside the inner loop only the `inner` part. -/
structure EnvInput where
  outer : OuterInput
  inner : InnerInput
deriving DecidableEq

/-- Position of the watcher's control flow: at the head of the `'outer` loop
(runner.rs line 107) or inside the `'inner` loop (line 141). -/
inductive Phase
  | outerLoop
  | innerLoop
deriving DecidableEq

/-- State of the watcher loop between steps: the `start_received` flag
(runner.rs line 105), the stall bookkeeping, and the control-flow phase. -/
structure WatcherState where
  start_received : Bool
  stall : StallState
  phase : Phase
deriving DecidableEq

/-- Watcher state right after `try_new`: waiting for the start signal. -/
def initial_watcher : WatcherState := ⟨false, initial_stall, .outerLoop⟩

/-- Fatal loop outcomes of `PipelineRunner::runner`: a non-`Empty` error from
the start-channel `try_recv` (runner.rs line 115) and a failed
`set_state(Playing)` (line 124). -/
inductive RunnerError
  | startSignalClosed
  | setStateFailed
deriving DecidableEq

deriving instance DecidableEq for Except

/-- Outcome of one step: still running in a new state, or the loop function
returned with `Ok` or with an error. -/
inductive StepResult
  | running (s : WatcherState)
  | exited (r : Except RunnerError Unit)
deriving DecidableEq

/-- Drive-to-Playing block (runner.rs lines 122-139): skipped when the
pipeline is already `Playing`; a `set_state` failure returns an error from the
loop; a `wait_for_element_state` failure logs and `continue`s the outer loop;
otherwise control falls through into the inner loop. -/
inductive DriveOutcome
  | enterInner
  | retryOuter
  | fatal
deriving DecidableEq

/-- Outcome of the drive-to-Playing block on this iteration's oracles. -/
def drive_to_playing (i : OuterInput) : DriveOutcome :=
  if i.is_playing then .enterInner
  else if i.set_state_ok = false then .fatal
  else if i.wait_ok = false then .retryOuter
  else .enterInner

/-- One step of the watcher loop of `PipelineRunner::runner` (runner.rs lines
107-226). At the outer loop head: while the start signal has not been
received, an `Empty` start channel means `continue` (line 114), any other
`try_recv` error is fatal (line 115), and a received value sets
`start_received` (line 119) and falls through into the drive-to-Playing block;
once started the start channel is never polled again. Inside the inner loop:
the stall check runs first (only when `allow_block` is false) and a trigger
breaks to the outer loop with the counter reset; then the bus is drained
(end-of-stream returns `Ok` from the loop, an error message breaks to the
outer loop); finally a value received on the killswitch returns `Ok` from the
loop (lines 221-224). -/
def watcher_step (allow_block : Bool) (s : WatcherState) (env : EnvInput) : StepResult :=
  match s.phase with
  | .outerLoop =>
    if s.start_received = false ∧ env.outer.start_recv = .empty then .running s
    else if s.start_received = false ∧ (env.outer.start_recv = .closed ∨ env.outer.start_recv = .lagged) then
      .exited (.error .startSignalClosed)
    else
      match drive_to_playing env.outer with
      | .enterInner => .running ⟨true, s.stall, .innerLoop⟩
      | .retryOuter => .running ⟨true, s.stall, .outerLoop⟩
      | .fatal => .exited (.error .setStateFailed)
  | .innerLoop =>
    let c := if allow_block then (s.stall, false) else stall_check s.stall env.inner.position
    if c.2 then .running ⟨s.start_received, c.1, .outerLoop⟩
    else
      match drain_bus env.inner.bus_msgs with
      | .eosFound => .exited (.ok ())
      | .errorFound => .running ⟨s.start_received, c.1, .outerLoop⟩
      | .drained =>
        match env.inner.kill_recv with
        | some _ => .exited (.ok ())
        | none => .running ⟨s.start_received, c.1, .innerLoop⟩

/-- Iterated watcher steps over a list of per-iteration oracle inputs,
stopping at the first exit. -/
def watcher_run (allow_block : Bool) (s : WatcherState) : List EnvInput → StepResult
  | [] => .running s
  | e :: rest =>
    match watcher_step allow_block s e with
    | .running s1 => watcher_run allow_block s1 rest
    | .exited r => .exited r

/-- Reason string the watcher thread body broadcasts when the loop returns
(runner.rs lines 40-52): the fixed string for an `Ok` return, the error's
message otherwise. -/
def thread_reason : Except RunnerError Unit → String
  | .ok _ => "Normal ending"
  | .error .startSignalClosed => "Failed receiving start signal"
  | .error .setStateFailed => "Failed setting Pipeline to Playing state"

/-- Number of killswitch sends the thread body performs once the loop
returns: exactly one, whatever the outcome (runner.rs lines 54-59). -/
def thread_exit_sends : Except RunnerError Unit → Nat := fun _ => 1

/-- Embedding of `try_new` (runner.rs lines 22-65): the only fallible
operation is spawning the watcher thread (the `?` on lines 37-63); on success
the construction returns at once with the watcher in its waiting state. The
spawn outcome is an oracle input. -/
def try_new (spawn_ok : Bool) : Except String WatcherState :=
  if spawn_ok then .ok initial_watcher
  else .error ("Failed when spawing PipelineRunner thread")

/-- Observable effects of `Drop for PipelineRunner` (runner.rs lines
232-247): whether an end-of-stream event was sent to the pipeline, how many
sends were performed on the killswitch channel, and the reason string those
sends carried. -/
structure DropEffects where
  eos_sent : Bool
  killswitch_sends : Nat
  killswitch_reason : String
deriving DecidableEq

/-- The destructor body (runner.rs lines 234-247): sends an end-of-stream
event iff the weak pipeline reference still upgrades, then performs exactly
one send on the killswitch channel, carrying the fixed reason string of line
241; `send_ok` is the outcome of that send, whose failure is only logged
(lines 243-245), so the effects do not depend on it and the body returns
normally either way. -/
def drop_runner (pipeline_alive : Bool) (send_ok : Bool) : DropEffects :=
  ⟨pipeline_alive, 1, ("PipelineRunner Dropped.")⟩

/-- Oracle inputs seen by the watcher right after the Runner was dropped
without `start()` ever being called: the Runner held the only
`start_signal_sender` (runner.rs lines 14, 34), so the start channel is
closed with nothing pending. -/
def env_after_drop : EnvInput :=
  ⟨⟨start_try_recv false 0 0, false, true, true⟩, ⟨none, [], none⟩⟩

/-- Total number of sends on the killswitch channel when a never-started
Runner is dropped: the destructor's own send, plus the watcher thread's exit
broadcast once its next start-channel poll observes the closed channel and
the loop returns with an error. -/
def teardown_sends_before_start (pipeline_alive : Bool) : Nat :=
  (drop_runner pipeline_alive true).killswitch_sends +
    match watcher_step false initial_watcher env_after_drop with
    | .exited r => thread_exit_sends r
    | .running _ => 0

/-- Success of a send on the killswitch channel, a tokio broadcast channel:
modelled from the tokio broadcast contract, `send` fails exactly when no
receiver is alive (this is the failure the destructor and the thread body
log, runner.rs lines 55-56 and 239-245). -/
def broadcast_send_ok (receivers : Nat) : Bool := decide (0 < receivers)

/-- Number of live killswitch receivers while the destructor body runs: any
external subscribers obtained through `get_receiver`, the watcher thread's
receiver if still alive, plus the Runner's own retained
`_killswitch_receiver` field (runner.rs lines 16, 28), which Rust drops only
after the `drop` body has returned. -/
def receivers_at_drop (external_subscribers watcher_receivers : Nat) : Nat :=
  external_subscribers + watcher_receivers + 1

/-- Helper: a stall check on an observation equal to a non-zero baseline
increments the counter, or triggers the re-drive and resets the counter when
the incremented counter exceeds the threshold. -/
theorem stall_check_repeat (p k : Nat) (hp : p ≠ 0) :
    stall_check ⟨some p, k⟩ (some p) =
      if 15 < k + 1 then (⟨some p, 0⟩, true) else (⟨some p, k + 1⟩, false) := by
  simp [stall_check, max_lost_timestamps, hp]

/-- Helper: a stall check on an observation that differs from the baseline, or
whose baseline is zero, resets the counter and triggers nothing. -/
theorem stall_check_reset (q sl p : Nat) (h : q = 0 ∨ q ≠ p) :
    stall_check ⟨some q, sl⟩ (some p) = (⟨some p, 0⟩, false) := by
  have hne : ¬ (q ≠ 0 ∧ q = p) := by tauto
  simp [stall_check, hne, max_lost_timestamps]

/-- Helper: running the stall check over `n` further copies of a non-zero
observation already installed as the baseline: the counter follows the count
of copies modulo 16, and one re-drive is triggered every 16 copies. -/
theorem stall_run_repeat (p : Nat) (hp : p ≠ 0) (n : Nat) :
    ∀ k, k ≤ 15 →
      stall_run ⟨some p, k⟩ (List.replicate n (some p)) =
        (⟨some p, (k + n) % 16⟩, (k + n) / 16) := by
  induction n with
  | zero =>
    intro k hk
    rw [List.replicate_zero]
    simp only [stall_run, Prod.mk.injEq, StallState.mk.injEq]
    refine ⟨⟨?_, by omega⟩, by omega⟩
    simp
  | succ n ih =>
    intro k hk
    rw [List.replicate_succ]
    simp only [stall_run, stall_check_repeat p k hp]
    by_cases h : 15 < k + 1
    · rw [if_pos h]
      have hk15 : k = 15 := by omega
      subst hk15
      rw [ih 0 (by omega)]
      simp [Prod.mk.injEq, StallState.mk.injEq]
      omega
    · rw [if_neg h]
      rw [ih (k + 1) (by omega)]
      simp [Prod.mk.injEq, StallState.mk.injEq]
      omega

/-- C1 (counterexample): feeding sixteen identical non-zero position readings
to a freshly constructed runner with stall detection enabled triggers no
re-drive at all, not one: the first reading only installs the baseline, so
the counter only reaches 15, which does not exceed the threshold 15. -/
theorem sixteen_identical_readings_no_redrive :
    (stall_run initial_stall (List.replicate 16 (some 1))).2 = 0 ∧
    ¬ (stall_run initial_stall (List.replicate 16 (some 1))).2 = 1 := by
  decide

/-- C1 (amended): for every sequence of n ≥ 1 identical non-zero position
readings fed to a freshly constructed runner with stall detection enabled,
the first reading installs the baseline and every window of 16 further
readings triggers exactly one re-drive, so exactly (n-1)/16 re-drives happen
in total — one per threshold crossing, the first at reading 17 — and each
trigger resets the counter to 0 immediately (the counter afterwards reads
(n-1) mod 16, with the retained baseline counting toward the next window). -/
theorem identical_readings_redrive_per_sixteen (p n : Nat) (hp : p ≠ 0) (hn : 1 ≤ n) :
    stall_run initial_stall (List.replicate n (some p)) =
      (⟨some p, (n - 1) % 16⟩, (n - 1) / 16) := by
  obtain ⟨m, rfl⟩ : ∃ m, n = m + 1 := ⟨n - 1, by omega⟩
  rw [List.replicate_succ]
  have h0 : stall_check initial_stall (some p) = (⟨some p, 0⟩, false) := by
    simp [stall_check, initial_stall]
  simp only [stall_run, h0]
  rw [stall_run_repeat p hp m 0 (by omega)]
  simp

/-- C1 witness: seventeen identical readings of position 1 yield exactly one
re-drive and leave the counter at 0. -/
theorem identical_readings_redrive_per_sixteen_witness :
    (1 : Nat) ≠ 0 ∧ 1 ≤ 17 ∧
      stall_run initial_stall (List.replicate 17 (some 1)) = (⟨some 1, 0⟩, 1) := by
  refine ⟨by decide, by decide, ?_⟩
  have h := identical_readings_redrive_per_sixteen 1 17 (by decide) (by decide)
  simpa using h

/-- Helper: along any sequence of defined observations the stall counter stays
bounded by the trailing count of unchanged observations, for every starting
state whose counter is bounded by the accumulator (and zero when no baseline
is installed yet). -/
theorem stall_run_le_unchanged (l : List Nat) :
    ∀ (s : StallState) (acc : Nat),
      (s.previous_position = none → s.lost_timestamps = 0) →
      s.lost_timestamps ≤ acc →
      (stall_run s (l.map some)).1.lost_timestamps ≤
        unchanged_run s.previous_position acc l := by
  induction l with
  | nil =>
    intro s acc h0 hacc
    simpa [stall_run, unchanged_run] using hacc
  | cons p rest ih =>
    rintro ⟨sp, sl⟩ acc h0 hacc
    cases sp with
    | none =>
      have hl0 : sl = 0 := h0 rfl
      subst hl0
      simp only [List.map_cons, stall_run, stall_check, unchanged_run]
      exact ih ⟨some p, 0⟩ 0 (fun h => by cases h) (Nat.le_refl 0)
    | some q =>
      rcases Decidable.em (q ≠ 0 ∧ q = p) with hq | hq
      · obtain ⟨hq0, rfl⟩ := hq
        simp only [List.map_cons, stall_run, stall_check_repeat q sl hq0,
          unchanged_run, if_pos rfl]
        by_cases htrig : 15 < sl + 1
        · rw [if_pos htrig]
          exact ih ⟨some q, 0⟩ (acc + 1) (fun h => by cases h) (Nat.zero_le _)
        · rw [if_neg htrig]
          exact ih ⟨some q, sl + 1⟩ (acc + 1) (fun h => by cases h)
            (Nat.succ_le_succ hacc)
      · have hq2 : q = 0 ∨ q ≠ p := by tauto
        simp only [List.map_cons, stall_run, stall_check_reset q sl p hq2,
          unchanged_run]
        exact ih ⟨some p, 0⟩ (if p = q then acc + 1 else 0)
          (fun h => by cases h) (Nat.zero_le _)

/-- C6: for every position sequence containing at least one change, the stall
counter of a freshly constructed runner never (at any prefix of the run)
exceeds the count of consecutive unchanged observations since the last
change; and an observation that differs from the previous baseline, or whose
previous baseline is zero, resets the counter to zero (triggering no
re-drive). -/
theorem stall_counter_resets_and_bounded (l : List Nat)
    (hl : has_change l = true) :
    (∀ l₁ l₂, l = l₁ ++ l₂ →
      (stall_run initial_stall (l₁.map some)).1.lost_timestamps ≤
        unchanged_run none 0 l₁) ∧
    (∀ (s : StallState) (q p : Nat), s.previous_position = some q →
      (q = 0 ∨ q ≠ p) →
      stall_check s (some p) = (⟨some p, 0⟩, false)) := by
  constructor
  · intro l₁ l₂ h
    exact stall_run_le_unchanged l₁ initial_stall 0 (fun _ => rfl) (Nat.le_refl 0)
  · rintro ⟨sp, sl⟩ q p hsp hq
    have hsp' : sp = some q := hsp
    subst hsp'
    exact stall_check_reset q sl p hq

/-- C6 witness: the bound and the reset evaluated on the sequence 1, 2. -/
theorem stall_counter_resets_and_bounded_witness :
    (stall_run initial_stall ([1, 2].map some)).1.lost_timestamps ≤
        unchanged_run none 0 [1, 2] ∧
    stall_check ⟨some 3, 7⟩ (some 4) = (⟨some 4, 0⟩, false) :=
  ⟨(stall_counter_resets_and_bounded [1, 2] (by decide)).1 [1, 2] [] (by simp),
   (stall_counter_resets_and_bounded [1, 2] (by decide)).2 ⟨some 3, 7⟩ 3 4 rfl
     (Or.inr (by decide))⟩

/-- C2 (counterexample): a pending killswitch value is not observed before the
start signal: with the start channel empty and a kill reason pending at every
iteration, the watcher is still running after five poll intervals, because
the waiting-for-start path `continue`s (runner.rs line 114) before the
killswitch is ever polled — so the kill is not observed within one poll
interval in every watcher state. -/
theorem kill_before_start_not_observed :
    watcher_run false initial_watcher
        (List.replicate 5 ⟨⟨.empty, true, true, true⟩, ⟨none, [], some ("stop")⟩⟩) =
      .running initial_watcher := rfl

/-- C2 (amended): a value pending on the killswitch is observed only in the
monitoring state, at the end of an inner iteration that reaches the
killswitch poll (no stall trigger and no end-of-stream or error message on
the bus): the loop then returns Ok within that same iteration, after which
the thread finishes and liveness becomes false. Before the start signal is
received the killswitch is not polled at all. -/
theorem kill_observed_in_monitoring (stall : StallState) (env : EnvInput)
    (received : Bool) (r : String)
    (hk : env.inner.kill_recv = some r)
    (hs : (stall_check stall env.inner.position).2 = false)
    (hd : drain_bus env.inner.bus_msgs = .drained) :
    watcher_step false ⟨received, stall, .innerLoop⟩ env = .exited (.ok ()) := by
  simp [watcher_step, hk, hs, hd]

/-- C2 witness: a kill value pending in the monitoring state ends the loop. -/
theorem kill_observed_in_monitoring_witness :
    watcher_step false ⟨true, ⟨some 1, 3⟩, .innerLoop⟩
        ⟨⟨.empty, true, true, true⟩, ⟨some 2, [.stateChanged], some ("stop")⟩⟩ =
      .exited (.ok ()) :=
  kill_observed_in_monitoring ⟨some 1, 3⟩
    ⟨⟨.empty, true, true, true⟩, ⟨some 2, [.stateChanged], some ("stop")⟩⟩
    true ("stop") rfl rfl rfl

/-- C3 (counterexample): an end-of-stream event pending on the bus is not
observed before the start signal: with the start channel empty, the watcher is
still running after three poll intervals even though an end-of-stream message
is pending throughout — no bus drain happens in the waiting-for-start state,
so the loop does not end there, let alone within one bus-drain iteration. -/
theorem eos_before_start_not_observed :
    watcher_run false initial_watcher
        (List.replicate 3 ⟨⟨.empty, true, true, true⟩, ⟨none, [.eos], none⟩⟩) =
      .running initial_watcher := rfl

/-- C3 (amended): whenever the watcher performs a bus drain (it does so only
in the monitoring state, on an inner iteration not cut short by a stall
trigger) and the drain reaches an end-of-stream message (no error message
before it), the loop ends in that same iteration with the non-error Ok
outcome. -/
theorem eos_drain_ends_ok (stall : StallState) (env : EnvInput) (received : Bool)
    (hs : (stall_check stall env.inner.position).2 = false)
    (hd : drain_bus env.inner.bus_msgs = .eosFound) :
    watcher_step false ⟨received, stall, .innerLoop⟩ env = .exited (.ok ()) := by
  simp [watcher_step, hs, hd]

/-- C3 witness: an end-of-stream message behind a diagnostic message ends the
loop with Ok. -/
theorem eos_drain_ends_ok_witness :
    watcher_step false ⟨true, initial_stall, .innerLoop⟩
        ⟨⟨.empty, true, true, true⟩, ⟨none, [.other, .eos], none⟩⟩ =
      .exited (.ok ()) :=
  eos_drain_ends_ok initial_stall
    ⟨⟨.empty, true, true, true⟩, ⟨none, [.other, .eos], none⟩⟩ true rfl rfl

/-- C4: the three transient conditions are each recoverable — none of them
exits the loop or returns an error: failing to reach the Playing state within
the bounded wait loops back to the outer loop (runner.rs line 137) with the
watcher still running; a bus error message breaks only the inner loop (line
197); a detected stall breaks only the inner loop with the counter reset
(line 161); in each case the watcher re-drives the pipeline toward Playing on
the next outer iteration. -/
theorem transient_failures_recoverable (received : Bool) (stall : StallState)
    (env : EnvInput) :
    (env.outer.is_playing = false → env.outer.set_state_ok = true →
      env.outer.wait_ok = false →
      watcher_step false ⟨true, stall, .outerLoop⟩ env =
        .running ⟨true, stall, .outerLoop⟩) ∧
    ((stall_check stall env.inner.position).2 = false →
      drain_bus env.inner.bus_msgs = .errorFound →
      watcher_step false ⟨received, stall, .innerLoop⟩ env =
        .running ⟨received, (stall_check stall env.inner.position).1, .outerLoop⟩) ∧
    ((stall_check stall env.inner.position).2 = true →
      watcher_step false ⟨received, stall, .innerLoop⟩ env =
        .running ⟨received, (stall_check stall env.inner.position).1, .outerLoop⟩) := by
  refine ⟨?_, ?_, ?_⟩
  · intro hip hss hw
    simp [watcher_step, drive_to_playing, hip, hss, hw]
  · intro hs hd
    simp [watcher_step, hs, hd]
  · intro hs
    simp [watcher_step, hs]

/-- C4 witness: the three recoveries evaluated at concrete inputs (a failed
wait for Playing, a bus error, and a stall trigger at counter 15). -/
theorem transient_failures_recoverable_witness :
    watcher_step false ⟨true, initial_stall, .outerLoop⟩
        ⟨⟨.empty, false, true, false⟩, ⟨none, [], none⟩⟩ =
      .running ⟨true, initial_stall, .outerLoop⟩ ∧
    watcher_step false ⟨true, initial_stall, .innerLoop⟩
        ⟨⟨.empty, true, true, true⟩, ⟨none, [.busError], none⟩⟩ =
      .running ⟨true, initial_stall, .outerLoop⟩ ∧
    watcher_step false ⟨true, ⟨some 1, 15⟩, .innerLoop⟩
        ⟨⟨.empty, true, true, true⟩, ⟨some 1, [], none⟩⟩ =
      .running ⟨true, ⟨some 1, 0⟩, .outerLoop⟩ :=
  ⟨(transient_failures_recoverable true initial_stall
      ⟨⟨.empty, false, true, false⟩, ⟨none, [], none⟩⟩).1 rfl rfl rfl,
   (transient_failures_recoverable true initial_stall
      ⟨⟨.empty, true, true, true⟩, ⟨none, [.busError], none⟩⟩).2.1 rfl rfl,
   (transient_failures_recoverable true ⟨some 1, 15⟩
      ⟨⟨.empty, true, true, true⟩, ⟨some 1, [], none⟩⟩).2.2 rfl⟩

/-- C5 (counterexample): dropping a never-started Runner does not result in
exactly one send on the killswitch channel: the destructor sends once, but
dropping the Runner also drops the only start-signal sender, so the watcher's
next poll observes the closed start channel, the loop exits with an error
(runner.rs line 115), and the thread body performs a second send (lines
54-59) — two sends in total. -/
theorem drop_before_start_two_broadcasts :
    teardown_sends_before_start true = 2 ∧
    ¬ teardown_sends_before_start true = 1 := by decide

/-- C5 (amended): the destructor itself performs exactly one killswitch send
and returns normally whatever happens: the graceful end-of-stream event is
sent iff the weak pipeline reference still resolves, the send carries the
fixed destroyed reason string of runner.rs line 241, and a failed send
changes nothing (it is only logged); for a never-started Runner the watcher
thread then observes the closed start channel, exits with an error and
performs its own exit send, for a total of two sends on the channel. -/
theorem drop_effects_spec (pipeline_alive send_ok : Bool) :
    (drop_runner pipeline_alive send_ok).killswitch_sends = 1 ∧
    (drop_runner pipeline_alive send_ok).eos_sent = pipeline_alive ∧
    (drop_runner pipeline_alive send_ok).killswitch_reason =
      "PipelineRunner Dropped." ∧
    drop_runner pipeline_alive send_ok = drop_runner pipeline_alive true ∧
    watcher_step false initial_watcher env_after_drop =
      .exited (.error .startSignalClosed) ∧
    teardown_sends_before_start pipeline_alive = 2 :=
  ⟨rfl, rfl, rfl, rfl, rfl, rfl⟩

/-- C7 (counterexample): two start() calls landing before the watcher's next
poll of the capacity-1 start channel make its try_recv return Lagged, which
the watcher treats as fatal (runner.rs line 115): it exits with an error
instead of transitioning out of the waiting state, while a single call lets
it transition out normally — so calling start() twice is not equivalent to
calling it once. -/
theorem double_start_before_poll_fatal :
    watcher_step false initial_watcher
        ⟨⟨start_try_recv true 2 0, true, true, true⟩, ⟨none, [], none⟩⟩ =
      .exited (.error .startSignalClosed) ∧
    watcher_step false initial_watcher
        ⟨⟨start_try_recv true 1 0, true, true, true⟩, ⟨none, [], none⟩⟩ =
      .running ⟨true, initial_stall, .innerLoop⟩ := ⟨rfl, rfl⟩

/-- C7 (amended): once the start signal has been received the start channel
is never polled again, so the watcher's behaviour does not depend on it (any
later start() delivery is harmless), it transitions out of the waiting state
exactly once; a single pending start() call is received and moves the watcher
out of the waiting state; only two calls racing into the same poll window
overflow the capacity-1 channel and terminate the watcher with an error. -/
theorem start_idempotent_after_receipt (stall : StallState) (ph : Phase)
    (o1 o2 : OuterInput) (i : InnerInput)
    (hp : o1.is_playing = o2.is_playing)
    (hs : o1.set_state_ok = o2.set_state_ok)
    (hw : o1.wait_ok = o2.wait_ok) :
    watcher_step false ⟨true, stall, ph⟩ ⟨o1, i⟩ =
      watcher_step false ⟨true, stall, ph⟩ ⟨o2, i⟩ ∧
    (o1.start_recv = .recvOk → o1.is_playing = true →
      watcher_step false ⟨false, stall, .outerLoop⟩ ⟨o1, i⟩ =
        .running ⟨true, stall, .innerLoop⟩) ∧
    start_try_recv true 1 0 = .recvOk := by
  obtain ⟨r1, p1, s1, w1⟩ := o1
  obtain ⟨r2, p2, s2, w2⟩ := o2
  obtain rfl : p1 = p2 := hp
  obtain rfl : s1 = s2 := hs
  obtain rfl : w1 = w2 := hw
  refine ⟨?_, ?_, rfl⟩
  · cases ph <;> simp [watcher_step, drive_to_playing]
  · intro hr hip
    obtain rfl : r1 = .recvOk := hr
    obtain rfl : p1 = true := hip
    simp [watcher_step, drive_to_playing]

/-- C7 witness: a received-start watcher behaves identically whatever the
start channel would report, and a single pending start() call moves the
watcher out of the waiting state. -/
theorem start_idempotent_after_receipt_witness :
    watcher_step false ⟨true, initial_stall, .innerLoop⟩
        ⟨⟨.recvOk, true, true, true⟩, ⟨none, [], none⟩⟩ =
      watcher_step false ⟨true, initial_stall, .innerLoop⟩
        ⟨⟨.lagged, true, true, true⟩, ⟨none, [], none⟩⟩ ∧
    watcher_step false ⟨false, initial_stall, .outerLoop⟩
        ⟨⟨.recvOk, true, true, true⟩, ⟨none, [], none⟩⟩ =
      .running ⟨true, initial_stall, .innerLoop⟩ ∧
    start_try_recv true 1 0 = .recvOk :=
  ⟨(start_idempotent_after_receipt initial_stall .innerLoop
      ⟨.recvOk, true, true, true⟩ ⟨.lagged, true, true, true⟩
      ⟨none, [], none⟩ rfl rfl rfl).1,
   (start_idempotent_after_receipt initial_stall .innerLoop
      ⟨.recvOk, true, true, true⟩ ⟨.lagged, true, true, true⟩
      ⟨none, [], none⟩ rfl rfl rfl).2.1 rfl rfl,
   (start_idempotent_after_receipt initial_stall .innerLoop
      ⟨.recvOk, true, true, true⟩ ⟨.lagged, true, true, true⟩
      ⟨none, [], none⟩ rfl rfl rfl).2.2⟩

/-- C8: construction fails exactly when spawning the watcher thread fails —
the only fallible step of try_new, enumerated over both spawn outcomes — and
on success it returns with the watcher idle in its waiting state: as long as
the start channel reports empty, every watcher step leaves the initial
waiting state unchanged, under either stall-detection setting. -/
theorem try_new_ok_iff_spawn :
    try_new true = .ok initial_watcher ∧
    try_new false = .error ("Failed when spawing PipelineRunner thread") ∧
    (∀ (ab : Bool) (env : EnvInput), env.outer.start_recv = .empty →
      watcher_step ab initial_watcher env = .running initial_watcher) := by
  refine ⟨rfl, rfl, ?_⟩
  intro ab env h
  simp [watcher_step, initial_watcher, h]

/-- C8 witness: the idle watcher stays in the waiting state on an empty start
channel. -/
theorem try_new_ok_iff_spawn_witness :
    watcher_step false initial_watcher
        ⟨⟨.empty, true, true, true⟩, ⟨none, [], none⟩⟩ =
      .running initial_watcher :=
  try_new_ok_iff_spawn.2.2 false ⟨⟨.empty, true, true, true⟩, ⟨none, [], none⟩⟩ rfl

/-- C9: both non-error exits of the loop broadcast exactly the fixed string:
a drained end-of-stream message and an externally received kill value each
make the loop return Ok, and the thread body then broadcasts the fixed
"Normal ending" string; in particular the kill reason r received from outside
is only logged, never re-broadcast — the broadcast string is the same fixed
string whatever r is. -/
theorem normal_exit_reason_fixed (stall : StallState) (env : EnvInput)
    (received : Bool) (r : String)
    (hs : (stall_check stall env.inner.position).2 = false) :
    (env.inner.kill_recv = some r → drain_bus env.inner.bus_msgs = .drained →
      watcher_step false ⟨received, stall, .innerLoop⟩ env = .exited (.ok ()) ∧
      thread_reason (.ok ()) = "Normal ending") ∧
    (drain_bus env.inner.bus_msgs = .eosFound →
      watcher_step false ⟨received, stall, .innerLoop⟩ env = .exited (.ok ()) ∧
      thread_reason (.ok ()) = "Normal ending") := by
  constructor
  · intro hk hd
    exact ⟨by simp [watcher_step, hs, hd, hk], rfl⟩
  · intro hd
    exact ⟨by simp [watcher_step, hs, hd], rfl⟩

/-- C9 witness: a kill received with an arbitrary external reason ends the
loop with Ok and the broadcast is the fixed string. -/
theorem normal_exit_reason_fixed_witness :
    watcher_step false ⟨true, initial_stall, .innerLoop⟩
        ⟨⟨.empty, true, true, true⟩, ⟨none, [], some ("external reason")⟩⟩ =
      .exited (.ok ()) ∧
    thread_reason (.ok ()) = "Normal ending" :=
  (normal_exit_reason_fixed initial_stall
      ⟨⟨.empty, true, true, true⟩, ⟨none, [], some ("external reason")⟩⟩
      true ("external reason") rfl).1 rfl rfl

/-- C10: the destructor's killswitch send always succeeds, so its logged
failure branch is unreachable: while the drop body runs, the Runner's own
retained receiver field has not been dropped yet (Rust drops fields only
after the drop body), so at least one receiver exists and the broadcast send
cannot fail. -/
theorem drop_broadcast_always_succeeds
    (external_subscribers watcher_receivers : Nat) :
    broadcast_send_ok
        (receivers_at_drop external_subscribers watcher_receivers) = true := by
  simp [broadcast_send_ok, receivers_at_drop]

end PipelineRunner
